import Mathlib

/-!
Shallow embedding of the duplicate-candidate matcher of the
`NIRSpec_MAST_Query` notebook.

The notebook builds an input catalog of proposed observations, issues a
bounded-region `Observations.query_criteria` call per target (plus a second
"NIRSPEC/MSA" call for non-MSA targets), stores the result tables in a Python
dict keyed by the target's catalog number (and number + "MOS"), and then
derives two order-preserving deduplicated identifier lists (`proposal_ids`
over `int(proposal_id)` and `obs_ids` over `obsid`) by iterating the primary
tables.

Numeric values are modelled as rationals (`ℚ`): every literal in the notebook
is an exact decimal and the arithmetic performed on them (subtraction,
addition, division by 4, multiplication by 4) is exact decimal arithmetic at
the scale of the spec's stated scenario values.  The external
`Observations.query_criteria` service is modelled as an arbitrary function
from the criteria actually sent to a list of result rows.  Python `dict`
assignment is modelled as an ordered list of write events with
last-write-wins lookup; `KeyError` / `ValueError` exceptions are modelled by
the `Except MatcherError` monad.
-/

set_option linter.unusedVariables false

namespace MastQuery

/-- A result row of the archive service, restricted to the fields the
notebook's duplication check reads (`proposal_id`, `obsid`) or constrains in
the query (`s_ra`, `s_dec`, `grating`, `filters`, `t_exptime`); all other
columns of a MAST row are irrelevant to the matcher and omitted. -/
structure ArchiveRecord where
  s_ra : ℚ
  s_dec : ℚ
  grating : String
  filters : String
  t_exptime : ℚ
  proposal_id : String
  obsid : String
  deriving DecidableEq, Repr

/-- The criteria of one `Observations.query_criteria` call, exactly the
keyword arguments passed in the notebook (cell-35): an instrument/mode name,
an `s_ra` interval, an `s_dec` interval, a grating, a filter and a
`t_exptime` interval. -/
structure QueryCriteria where
  instrument_name : String
  s_ra_min : ℚ
  s_ra_max : ℚ
  s_dec_min : ℚ
  s_dec_max : ℚ
  grating : String
  filters : String
  t_exptime_min : ℚ
  t_exptime_max : ℚ
  deriving DecidableEq, Repr

/-- The external archive-query collaborator: responses as a function of the
criteria sent. -/
def Service : Type := QueryCriteria → List ArchiveRecord

/-! ### Cell-25: the per-aperture duplication search radii -/

def mos_radius : ℚ := 180 / 360
def mos_slit_radius : ℚ := 0.46 / 360
def ifu_radius : ℚ := 3 / 360
def fs_S1600A1_radius : ℚ := 1.6 / 360
def fs_S200A1_radius : ℚ := 3.3 / 360
def fs_S200A2_radius : ℚ := 3.3 / 360
def fs_S400A1_radius : ℚ := 3.8 / 360
def fs_S200B1_radius : ℚ := 3.3 / 360

/-- Cell-27: the `search_area` dict; Python dict indexing returns `none`
(a `KeyError`) on an unknown aperture key. -/
def search_area (key : String) : Option ℚ :=
  match key with
  | "MSA" => some mos_radius
  | "IFU" => some ifu_radius
  | "S1600A1" => some fs_S1600A1_radius
  | "S200A1" => some fs_S200A1_radius
  | "S200A2" => some fs_S200A2_radius
  | "S400A1" => some fs_S400A1_radius
  | "S200B1" => some fs_S200B1_radius
  | _ => none

/-- Cell-29: the `instrument_name` dict. -/
def instrument_name (key : String) : Option String :=
  match key with
  | "MSA" => some "NIRSPEC/MSA"
  | "IFU" => some "NIRSPEC/IFU"
  | "S1600A1" => some "NIRSPEC/SLIT"
  | "S200A1" => some "NIRSPEC/SLIT"
  | "S200A2" => some "NIRSPEC/SLIT"
  | "S400A1" => some "NIRSPEC/SLIT"
  | "S200B1" => some "NIRSPEC/SLIT"
  | _ => none

/-- Error kinds of the run: `configurationError` models the `KeyError`
raised by the aperture-dict lookups of cell-31 (the spec's
`ConfigurationError`), `conversionError` the `ValueError` raised by
`int()` in cell-37, `keyError` a `KeyError` on the observation-table dict. -/
inductive MatcherError where
  | configurationError
  | conversionError
  | keyError
  deriving DecidableEq, Repr

/-- The caller-supplied description of one proposed observation, before the
cell-31 dict lookups resolve its aperture. -/
structure RawTarget where
  number : String
  aperture : String
  RA : ℚ
  DEC : ℚ
  grating : String
  filters : String
  exposure_time : ℚ
  deriving DecidableEq, Repr

/-- One entry of the notebook's `input_catalog` (cell-31): the fields of the
`targetN` dicts.  The aperture key itself is not stored, only the
`search_area` and `instrument_name` values resolved from it. -/
structure Target where
  number : String
  RA : ℚ
  DEC : ℚ
  grating : String
  filters : String
  exposure_time : ℚ
  search_area : ℚ
  instrument_name : String
  deriving DecidableEq, Repr

/-- Cell-31's construction of one `targetN` dict: resolve `search_area` and
`instrument_name` from the aperture key; an unknown key raises (the spec's
`ConfigurationError`). -/
def mkTarget (r : RawTarget) : Except MatcherError Target :=
  match search_area r.aperture, instrument_name r.aperture with
  | some sa, some iname =>
      .ok { number := r.number, RA := r.RA, DEC := r.DEC, grating := r.grating,
            filters := r.filters, exposure_time := r.exposure_time,
            search_area := sa, instrument_name := iname }
  | _, _ => .error .configurationError

/-- Cell-31: building the whole `input_catalog`; every target is constructed
(and hence every aperture key resolved) before the query loop of cell-35
runs. -/
def buildCatalog (rs : List RawTarget) : Except MatcherError (List Target) :=
  rs.mapM mkTarget

/-! ### Cell-35: the query loop -/

/-- The criteria of the primary `Observations.query_criteria` call for one
target, exactly as built in cell-35. -/
def primaryQuery (t : Target) : QueryCriteria :=
  { instrument_name := t.instrument_name,
    s_ra_min := t.RA - t.search_area, s_ra_max := t.RA + t.search_area,
    s_dec_min := t.DEC - t.search_area, s_dec_max := t.DEC + t.search_area,
    grating := t.grating, filters := t.filters,
    t_exptime_min := t.exposure_time / 4, t_exptime_max := t.exposure_time * 4 }

/-- The criteria of the companion MOS call of cell-35: the same bounds,
grating, filter and exposure range, with the instrument name forced to
"NIRSPEC/MSA". -/
def mosQuery (t : Target) : QueryCriteria :=
  { instrument_name := "NIRSPEC/MSA",
    s_ra_min := t.RA - t.search_area, s_ra_max := t.RA + t.search_area,
    s_dec_min := t.DEC - t.search_area, s_dec_max := t.DEC + t.search_area,
    grating := t.grating, filters := t.filters,
    t_exptime_min := t.exposure_time / 4, t_exptime_max := t.exposure_time * 4 }

/-- The `(key, criteria)` pairs of the calls cell-35 issues for one target:
always the primary call stored under `target['number']`, plus, when the
target's instrument name is not "NIRSPEC/MSA", the companion MOS call stored
under `target['number'] + "MOS"`. -/
def targetCalls (t : Target) : List (String × QueryCriteria) :=
  (t.number, primaryQuery t) ::
    (if t.instrument_name ≠ "NIRSPEC/MSA" then [(t.number ++ "MOS", mosQuery t)] else [])

/-- The queries issued for one target, in issue order. -/
def targetQueries (t : Target) : List QueryCriteria :=
  (targetCalls t).map (fun p => p.2)

/-- The dict-write events `table[key] = service(criteria)` performed for one
target, in program order. -/
def targetWrites (svc : Service) (t : Target) : List (String × List ArchiveRecord) :=
  (targetCalls t).map (fun p => (p.1, svc p.2))

/-- All queries issued by the cell-35 loop over a (successfully built)
catalog, in issue order. -/
def queriesIssued (catalog : List Target) : List QueryCriteria :=
  (catalog.map targetQueries).flatten

/-- All queries the whole notebook run issues for a raw catalog: cell-31
builds every target before cell-35 queries anything, so a catalog that fails
to build issues no query at all. -/
def queriesIssuedRaw (rs : List RawTarget) : List QueryCriteria :=
  match buildCatalog rs with
  | .error _ => []
  | .ok catalog => queriesIssued catalog

/-- The `table` dict of cell-35 as its ordered list of write events. -/
def buildTable (svc : Service) (catalog : List Target) :
    List (String × List ArchiveRecord) :=
  (catalog.map (targetWrites svc)).flatten

/-- Python-dict lookup over a list of write events: the last write to the
key wins; `none` models a `KeyError`. -/
def dictLookup? (table : List (String × List ArchiveRecord)) (k : String) :
    Option (List ArchiveRecord) :=
  table.foldl (fun acc p => if p.1 = k then some p.2 else acc) none

/-! ### Cells 37 and 38: the deduplicated identifier lists -/

/-- Value of a list of decimal digit characters. -/
def digitsVal (l : List Char) : Nat :=
  l.foldl (fun a c => 10 * a + (c.toNat - 48)) 0

/-- Parse a nonempty all-digit character list. -/
def parseDigits (l : List Char) : Option Nat :=
  if !l.isEmpty && l.all Char.isDigit then some (digitsVal l) else none

/-- Strip leading and trailing spaces. -/
def stripSpaces (l : List Char) : List Char :=
  ((l.dropWhile (fun c => c == ' ')).reverse.dropWhile (fun c => c == ' ')).reverse

/-- Model of Python's built-in `int()` on a string: optional surrounding
spaces, an optional single sign, then a nonempty run of decimal digits;
anything else raises `ValueError` (here: `none`).  (Underscore digit
grouping and non-ASCII digits, which MAST identifiers never contain, are not
modelled.) -/
def pyInt (s : String) : Option Int :=
  match stripSpaces s.data with
  | '+' :: rest => (parseDigits rest).map (fun n => (n : Int))
  | '-' :: rest => (parseDigits rest).map (fun n => -(n : Int))
  | rest => (parseDigits rest).map (fun n => (n : Int))

/-- The `proposal_id` column of an observation table. -/
def proposalColumn (rows : List ArchiveRecord) : List String :=
  rows.map (fun r => r.proposal_id)

/-- The `obsid` column of an observation table. -/
def obsidColumn (rows : List ArchiveRecord) : List String :=
  rows.map (fun r => r.obsid)

/-- The body of the inner cell-37 loop: `if int(proposal_id) not in
proposal_ids: proposal_ids.append(int(proposal_id))`; a failed `int()`
raises a `ValueError`. -/
def pidStep (ids : List Int) (s : String) : Except MatcherError (List Int) :=
  match pyInt s with
  | some n => .ok (if n ∈ ids then ids else ids ++ [n])
  | none => .error .conversionError

/-- The body of the outer cell-37 loop: iterate
`table[target['number']]['proposal_id']`.  Only the primary table of the
target is consulted. -/
def targetPidStep (table : List (String × List ArchiveRecord))
    (acc : List Int) (t : Target) : Except MatcherError (List Int) :=
  match dictLookup? table t.number with
  | some rows => (proposalColumn rows).foldlM pidStep acc
  | none => .error .keyError

/-- Cell-37: for each target in the input catalog, loop over
`table[target['number']]['proposal_id']` and append `int(proposal_id)` to the
accumulator when not already present. -/
def proposal_ids (table : List (String × List ArchiveRecord))
    (catalog : List Target) : Except MatcherError (List Int) :=
  catalog.foldlM (targetPidStep table) []

/-- The body of the inner cell-38 loop: `if obs_id not in obs_ids:
obs_ids.append(obs_id)`; no conversion, so no exception. -/
def obsStep (ids : List String) (s : String) : List String :=
  if s ∈ ids then ids else ids ++ [s]

/-- The body of the outer cell-38 loop: iterate
`table[target['number']]['obsid']`. -/
def targetObsStep (table : List (String × List ArchiveRecord))
    (acc : List String) (t : Target) : Except MatcherError (List String) :=
  match dictLookup? table t.number with
  | some rows => .ok ((obsidColumn rows).foldl obsStep acc)
  | none => .error .keyError

/-- Cell-38: the same loop over the `obsid` column, without integer
conversion. -/
def obs_ids (table : List (String × List ArchiveRecord))
    (catalog : List Target) : Except MatcherError (List String) :=
  catalog.foldlM (targetObsStep table) []

/-- The output of the whole run: the observation-table dict (as its write
events) plus the two derived identifier lists. -/
structure DuplicateReport where
  table : List (String × List ArchiveRecord)
  proposalIds : List Int
  observationIds : List String
  deriving Repr

/-- The whole notebook run over an input catalog: build every target
(cell-31), issue the queries and populate the table dict (cell-35), then
derive the two deduplicated identifier lists (cells 37 and 38). -/
def buildDuplicateReport (svc : Service) (rs : List RawTarget) :
    Except MatcherError DuplicateReport := do
  let catalog ← buildCatalog rs
  let table := buildTable svc catalog
  let pids ← proposal_ids table catalog
  let oids ← obs_ids table catalog
  pure { table := table, proposalIds := pids, observationIds := oids }

/-! ### The notebook's concrete input catalog (cell-31) -/

def target1raw : RawTarget :=
  { number := "1", aperture := "MSA", RA := 53.13, DEC := -27.8,
    grating := "G395H", filters := "F290LP", exposure_time := 950 }

def target2raw : RawTarget :=
  { number := "2", aperture := "IFU", RA := 68.73091, DEC := 24.48140,
    grating := "G395H", filters := "F290LP", exposure_time := 22.749 }

def target3raw : RawTarget :=
  { number := "3", aperture := "S200B1", RA := 5.130, DEC := -36.895,
    grating := "G140H", filters := "F070LP", exposure_time := 1880.22 }

def input_catalog : List RawTarget := [target1raw, target2raw, target3raw]

/-! ### Spec-side comparison definitions -/

/-- Spec-side description of order-of-first-appearance deduplication: keep
each value's first occurrence, dropping its later repetitions.  (Structural
formulation: dedup the tail, then drop the later copies of the head.) -/
def firstOccDedup {α : Type} [DecidableEq α] : List α → List α
  | [] => []
  | x :: xs => x :: (firstOccDedup xs).filter (fun y => decide (y ≠ x))

/-- A record satisfies the criteria of a query. -/
def RecordMatches (q : QueryCriteria) (r : ArchiveRecord) : Prop :=
  q.s_ra_min ≤ r.s_ra ∧ r.s_ra ≤ q.s_ra_max ∧
  q.s_dec_min ≤ r.s_dec ∧ r.s_dec ≤ q.s_dec_max ∧
  r.grating = q.grating ∧ r.filters = q.filters ∧
  q.t_exptime_min ≤ r.t_exptime ∧ r.t_exptime ≤ q.t_exptime_max

instance (q : QueryCriteria) (r : ArchiveRecord) : Decidable (RecordMatches q r) := by
  unfold RecordMatches; infer_instance

/-- The assumption on the external collaborator: the archive service honors
the filter parameters sent to it, returning only matching rows. -/
def Honors (svc : Service) : Prop :=
  ∀ q r, r ∈ svc q → RecordMatches q r

/-- An extensionally honest service for witnesses: it returns, for each
query, the rows of a fixed pool that match the query. -/
def honestSvc (pool : List ArchiveRecord) : Service :=
  fun q => pool.filter (fun r => decide (RecordMatches q r))

/-- The pure accumulator step of the cell-37/38 deduplicating loops, staged
out of the monad: fold "append if not already present" over a list. -/
def dedupFold {α : Type} [DecidableEq α] (acc : List α) (l : List α) : List α :=
  l.foldl (fun ids x => if x ∈ ids then ids else ids ++ [x]) acc

/-- The integer conversions of the iterated `proposal_id` strings, staged out
of the loop: all succeed, or the run raises the `int()` `ValueError`. -/
def parseAll (l : List String) : Except MatcherError (List Int) :=
  match l.mapM pyInt with
  | some xs => .ok xs
  | none => .error .conversionError

/-! ### Concrete values used by witnesses and counterexamples -/

/-- `target1` of cell-31 after its dict lookups. -/
def target1built : Target :=
  { number := "1", RA := 53.13, DEC := -27.8, grating := "G395H",
    filters := "F290LP", exposure_time := 950,
    search_area := 1 / 2, instrument_name := "NIRSPEC/MSA" }

/-- `target2` of cell-31 after its dict lookups. -/
def target2built : Target :=
  { number := "2", RA := 68.73091, DEC := 24.48140, grating := "G395H",
    filters := "F290LP", exposure_time := 22.749,
    search_area := 3 / 360, instrument_name := "NIRSPEC/IFU" }

/-- A result row inside the bounds of target 1's query. -/
def sampleRecord : ArchiveRecord :=
  { s_ra := 53.13, s_dec := -27.8, grating := "G395H", filters := "F290LP",
    t_exptime := 950, proposal_id := "1180", obsid := "86864325" }

/-- A raw target whose aperture key resolves in neither dict. -/
def rawBogus : RawTarget :=
  { number := "X", aperture := "BOGUS", RA := 0, DEC := 0, grating := "G",
    filters := "F", exposure_time := 1 }

/-- A service returning no rows. -/
def emptySvc : Service := fun _ => []


/-- A service answering the MSA-mode query with nothing and every other
query with the sample record. -/
def mosOnlySvc : Service :=
  fun q => if q.instrument_name = "NIRSPEC/MSA" then [] else [sampleRecord]

/-- A second in-bounds row with the same proposal id and a new obsid. -/
def sampleRecord2 : ArchiveRecord :=
  { s_ra := 53.2, s_dec := -27.9, grating := "G395H", filters := "F290LP",
    t_exptime := 1000, proposal_id := "1180", obsid := "86864326" }

/-- A one-entry observation-table dict for witnesses. -/
def tblW : List (String × List ArchiveRecord) :=
  [("1", [sampleRecord, sampleRecord2])]

/-- A row returned by the primary (non-MSA) query of the counterexamples. -/
def recPrimary : ArchiveRecord :=
  { s_ra := 68.7, s_dec := 24.5, grating := "G395H", filters := "F290LP",
    t_exptime := 23, proposal_id := "7", obsid := "100" }

/-- A row returned only by the companion MSA query. -/
def recMos : ArchiveRecord :=
  { s_ra := 68.7, s_dec := 24.5, grating := "G395H", filters := "F290LP",
    t_exptime := 23, proposal_id := "8", obsid := "200" }

/-- A row whose proposal id does not parse as a decimal integer. -/
def recBad : ArchiveRecord :=
  { s_ra := 68.7, s_dec := 24.5, grating := "G395H", filters := "F290LP",
    t_exptime := 23, proposal_id := "abc", obsid := "300" }

/-- A service answering the MSA query and every other query differently. -/
def splitSvc : Service :=
  fun q => if q.instrument_name = "NIRSPEC/MSA" then [recMos] else [recPrimary]

/-- A service returning the unparseable row only on the MSA query. -/
def badMosSvc : Service :=
  fun q => if q.instrument_name = "NIRSPEC/MSA" then [recBad] else [recPrimary]

/-- A service returning the unparseable row on the primary (non-MSA) query. -/
def badPrimarySvc : Service :=
  fun q => if q.instrument_name = "NIRSPEC/MSA" then [] else [recBad]

/-- A service discriminating on the grating only. -/
def svcByGrating : Service :=
  fun q => if q.grating = "G1" then [recPrimary] else []

/-- Two MSA candidates sharing the catalog number "1". -/
def rawA : RawTarget :=
  { number := "1", aperture := "MSA", RA := 0, DEC := 0, grating := "G1",
    filters := "F", exposure_time := 1 }

def rawB : RawTarget :=
  { number := "1", aperture := "MSA", RA := 0, DEC := 0, grating := "G2",
    filters := "F", exposure_time := 1 }

def tA : Target :=
  { number := "1", RA := 0, DEC := 0, grating := "G1", filters := "F",
    exposure_time := 1, search_area := mos_radius,
    instrument_name := "NIRSPEC/MSA" }

def tB : Target :=
  { number := "1", RA := 0, DEC := 0, grating := "G2", filters := "F",
    exposure_time := 1, search_area := mos_radius,
    instrument_name := "NIRSPEC/MSA" }

/-- A non-MSA candidate numbered "1" next to an MSA candidate numbered
"1MOS". -/
def rawC : RawTarget :=
  { number := "1", aperture := "IFU", RA := 0, DEC := 0, grating := "G1",
    filters := "F", exposure_time := 1 }

def rawD : RawTarget :=
  { number := "1MOS", aperture := "MSA", RA := 0, DEC := 0, grating := "G2",
    filters := "F", exposure_time := 1 }

def tC : Target :=
  { number := "1", RA := 0, DEC := 0, grating := "G1", filters := "F",
    exposure_time := 1, search_area := ifu_radius,
    instrument_name := "NIRSPEC/IFU" }

def tD : Target :=
  { number := "1MOS", RA := 0, DEC := 0, grating := "G2", filters := "F",
    exposure_time := 1, search_area := mos_radius,
    instrument_name := "NIRSPEC/MSA" }

/-! ### Lemmas: dict lookup -/

theorem dictLookup?_nil (k : String) : dictLookup? [] k = none := rfl

theorem foldl_dictLookup_acc (l : List (String × List ArchiveRecord)) (k : String) :
    ∀ acc : Option (List ArchiveRecord),
      l.foldl (fun acc p => if p.1 = k then some p.2 else acc) acc
        = (dictLookup? l k).or acc := by
  induction l with
  | nil => intro acc; rfl
  | cons p rest ih =>
      intro acc
      have hc : dictLookup? (p :: rest) k
          = (dictLookup? rest k).or (if p.1 = k then some p.2 else none) := by
        show rest.foldl (fun acc p => if p.1 = k then some p.2 else acc)
          (if p.1 = k then some p.2 else none) = _
        rw [ih]
      rw [List.foldl_cons, ih, hc]
      by_cases hp : p.1 = k <;> cases h : dictLookup? rest k <;>
        simp [hp, h, Option.or]

theorem dictLookup?_cons (p : String × List ArchiveRecord)
    (l : List (String × List ArchiveRecord)) (k : String) :
    dictLookup? (p :: l) k
      = (dictLookup? l k).or (if p.1 = k then some p.2 else none) := by
  show l.foldl (fun acc p => if p.1 = k then some p.2 else acc)
    (if p.1 = k then some p.2 else none) = _
  rw [foldl_dictLookup_acc]

theorem dictLookup?_append (l₁ l₂ : List (String × List ArchiveRecord)) (k : String) :
    dictLookup? (l₁ ++ l₂) k = (dictLookup? l₂ k).or (dictLookup? l₁ k) := by
  show (l₁ ++ l₂).foldl (fun acc p => if p.1 = k then some p.2 else acc) none = _
  rw [List.foldl_append, foldl_dictLookup_acc]
  rfl

theorem dictLookup?_eq_none_iff (l : List (String × List ArchiveRecord)) (k : String) :
    dictLookup? l k = none ↔ k ∉ l.map Prod.fst := by
  induction l with
  | nil => simp [dictLookup?]
  | cons p rest ih =>
      rw [dictLookup?_cons]
      simp only [List.map_cons, List.mem_cons, not_or]
      cases h : dictLookup? rest k with
      | some v =>
          have hk : k ∈ rest.map Prod.fst := by
            by_contra hk
            rw [ih.mpr hk] at h
            cases h
          simp [Option.or, hk]
      | none =>
          have hk : k ∉ rest.map Prod.fst := ih.mp h
          by_cases hp : p.1 = k
          · subst hp; simp [Option.or, hk]
          · have hk2 : ¬k = p.1 := fun hh => hp (Eq.symm hh)
            simp [Option.or, hp, hk, hk2]

theorem dictLookup?_isSome_of_mem (l : List (String × List ArchiveRecord))
    (k : String) (h : k ∈ l.map Prod.fst) : (dictLookup? l k).isSome := by
  cases hl : dictLookup? l k with
  | some v => rfl
  | none => exact absurd h ((dictLookup?_eq_none_iff l k).mp hl)

/-- On a table whose keys are pairwise distinct, looking up the key of any
write event returns that event's value. -/
theorem dictLookup?_of_nodup (l : List (String × List ArchiveRecord))
    (hnd : (l.map Prod.fst).Nodup) :
    ∀ kv ∈ l, dictLookup? l kv.1 = some kv.2 := by
  induction l with
  | nil => intro kv h; cases h
  | cons p rest ih =>
      simp only [List.map_cons, List.nodup_cons] at hnd
      intro kv hkv
      rw [dictLookup?_cons]
      rcases List.mem_cons.mp hkv with h | h
      · subst h
        have : dictLookup? rest kv.1 = none :=
          (dictLookup?_eq_none_iff rest kv.1).mpr hnd.1
        simp [this, Option.or]
      · have := ih hnd.2 kv h
        simp [this, Option.or]

/-! ### Lemmas: first-occurrence deduplication -/

theorem firstOccDedup_cons {α : Type} [DecidableEq α] (x : α) (xs : List α) :
    firstOccDedup (x :: xs)
      = x :: (firstOccDedup xs).filter (fun y => decide (y ≠ x)) := rfl

theorem firstOccDedup_subset {α : Type} [DecidableEq α] (l : List α) :
    firstOccDedup l ⊆ l := by
  induction l with
  | nil => exact fun y hy => hy
  | cons x xs ih =>
      rw [firstOccDedup_cons]
      intro y hy
      rcases List.mem_cons.mp hy with h | h
      · exact h ▸ List.mem_cons_self _ _
      · exact List.mem_cons_of_mem _ (ih (List.mem_of_mem_filter h))

theorem firstOccDedup_nodup {α : Type} [DecidableEq α] (l : List α) :
    (firstOccDedup l).Nodup := by
  induction l with
  | nil => exact List.nodup_nil
  | cons x xs ih =>
      rw [firstOccDedup_cons]
      refine List.nodup_cons.mpr ⟨fun hx => ?_, ih.filter _⟩
      have := List.of_mem_filter hx
      simp at this

/-- Deduplication commutes with filtering. -/
theorem firstOccDedup_filter {α : Type} [DecidableEq α] (p : α → Bool) (l : List α) :
    (firstOccDedup l).filter p = firstOccDedup (l.filter p) := by
  induction l with
  | nil => rfl
  | cons x xs ih =>
      rw [firstOccDedup_cons, List.filter_cons, List.filter_cons]
      cases hp : p x with
      | true =>
          rw [if_pos rfl, if_pos rfl, firstOccDedup_cons, ← ih,
            List.filter_filter, List.filter_filter]
          congr 1
          apply List.filter_congr
          intro y _
          rw [Bool.and_comm]
      | false =>
          rw [if_neg (by decide), if_neg (by decide), ← ih, List.filter_filter]
          apply List.filter_congr
          intro y _
          by_cases hyx : y = x
          · subst hyx; simp [hp]
          · simp [hyx]

theorem dedupFold_append {α : Type} [DecidableEq α] (acc l₁ l₂ : List α) :
    dedupFold acc (l₁ ++ l₂) = dedupFold (dedupFold acc l₁) l₂ :=
  List.foldl_append _ _ _ _

theorem dedupFold_eq {α : Type} [DecidableEq α] (l : List α) :
    ∀ acc : List α,
      dedupFold acc l = acc ++ firstOccDedup (l.filter (fun y => decide (y ∉ acc))) := by
  induction l with
  | nil => intro acc; simp [dedupFold, firstOccDedup]
  | cons x xs ih =>
      intro acc
      show dedupFold (if x ∈ acc then acc else acc ++ [x]) xs = _
      by_cases hx : x ∈ acc
      · rw [if_pos hx, ih]
        have hfilter : (x :: xs).filter (fun y => decide (y ∉ acc))
            = xs.filter (fun y => decide (y ∉ acc)) := by
          simp [List.filter_cons, hx]
        rw [hfilter]
      · rw [if_neg hx, ih]
        have hfilter : (x :: xs).filter (fun y => decide (y ∉ acc))
            = x :: xs.filter (fun y => decide (y ∉ acc)) := by
          simp [List.filter_cons, hx]
        rw [hfilter, firstOccDedup_cons, firstOccDedup_filter, List.filter_filter]
        have hcong : xs.filter (fun y => decide (y ≠ x) && decide (y ∉ acc))
            = xs.filter (fun y => decide (y ∉ acc ++ [x])) := by
          apply List.filter_congr
          intro y _
          by_cases h1 : y = x <;> by_cases h2 : y ∈ acc <;>
            simp [h1, h2, List.mem_append]
        rw [hcong, List.append_assoc]
        rfl

theorem dedupFold_nil_eq {α : Type} [DecidableEq α] (l : List α) :
    dedupFold [] l = firstOccDedup l := by
  rw [dedupFold_eq]
  have : l.filter (fun y => decide (y ∉ ([] : List α))) = l := by
    apply List.filter_eq_self.mpr
    intro y _
    simp
  rw [this, List.nil_append]

/-! ### Lemmas: staging the cell-37/38 loops -/

theorem parseAll_nil : parseAll [] = .ok [] := rfl

theorem parseAll_cons_some (s : String) (n : Int) (rest : List String)
    (hs : pyInt s = some n) :
    parseAll (s :: rest) = (parseAll rest).map (fun xs => n :: xs) := by
  unfold parseAll
  rw [List.mapM_cons]
  cases hrest : rest.mapM pyInt <;> simp [hs, hrest, Except.map]

theorem parseAll_cons_none (s : String) (rest : List String)
    (hs : pyInt s = none) :
    parseAll (s :: rest) = .error .conversionError := by
  unfold parseAll
  rw [List.mapM_cons]
  simp [hs]

theorem parseAll_append (l₁ l₂ : List String) :
    parseAll (l₁ ++ l₂)
      = match parseAll l₁ with
        | .ok xs => (parseAll l₂).map (fun ys => xs ++ ys)
        | .error e => .error e := by
  unfold parseAll
  rw [List.mapM_append]
  cases h1 : l₁.mapM pyInt <;> cases h2 : l₂.mapM pyInt <;>
    simp [h1, h2, Except.map]

theorem pidFold_eq (l : List String) :
    ∀ acc : List Int,
      (l.foldlM pidStep acc : Except MatcherError (List Int))
        = (parseAll l).map (fun xs => dedupFold acc xs) := by
  induction l with
  | nil => intro acc; rw [parseAll_nil]; rfl
  | cons s rest ih =>
      intro acc
      rw [List.foldlM_cons]
      cases hs : pyInt s with
      | some n =>
          have hstep : pidStep acc s = .ok (if n ∈ acc then acc else acc ++ [n]) := by
            unfold pidStep; rw [hs]
          rw [hstep, parseAll_cons_some s n rest hs]
          show rest.foldlM pidStep (if n ∈ acc then acc else acc ++ [n]) = _
          rw [ih]
          cases hrest : parseAll rest <;> simp [hrest, Except.map, dedupFold]
      | none =>
          have hstep : pidStep acc s = .error .conversionError := by
            unfold pidStep; rw [hs]
          rw [hstep, parseAll_cons_none s rest hs]
          rfl

theorem targetPidStep_lookup (table : List (String × List ArchiveRecord))
    (acc : List Int) (t : Target) (rows : List ArchiveRecord)
    (h : dictLookup? table t.number = some rows) :
    targetPidStep table acc t
      = (parseAll (proposalColumn rows)).map (fun xs => dedupFold acc xs) := by
  unfold targetPidStep
  rw [h]
  exact pidFold_eq _ _

theorem proposal_ids_foldlM (table : List (String × List ArchiveRecord))
    (cat : List Target) :
    ∀ (acc : List Int) (rowss : List (List ArchiveRecord)),
      cat.mapM (fun t => dictLookup? table t.number) = some rowss →
      (cat.foldlM (targetPidStep table) acc : Except MatcherError (List Int))
        = (parseAll ((rowss.map proposalColumn).flatten)).map
            (fun xs => dedupFold acc xs) := by
  induction cat with
  | nil =>
      intro acc rowss h
      simp only [List.mapM_nil, pure, Option.some.injEq] at h
      subst h
      simp only [List.map_nil, List.flatten_nil]
      rw [parseAll_nil]
      rfl
  | cons t ts ih =>
      intro acc rowss h
      rw [List.mapM_cons] at h
      cases hl : dictLookup? table t.number with
      | none => rw [hl] at h; simp at h
      | some rows =>
          rw [hl] at h
          cases hts : ts.mapM (fun t => dictLookup? table t.number) with
          | none => rw [hts] at h; simp at h
          | some rest =>
              rw [hts] at h
              simp only [Option.bind_some, Option.bind_eq_bind, Option.some_bind,
                Option.some.injEq] at h
              have hrowss : rowss = rows :: rest := by
                cases h; rfl
              subst hrowss
              rw [List.foldlM_cons, targetPidStep_lookup table acc t rows hl]
              have hflat : ((rows :: rest).map proposalColumn).flatten
                  = proposalColumn rows ++ (rest.map proposalColumn).flatten := by
                simp
              rw [hflat, parseAll_append]
              cases hp : parseAll (proposalColumn rows) with
              | error e => rfl
              | ok xs =>
                  show ts.foldlM (targetPidStep table) (dedupFold acc xs) = _
                  rw [ih (dedupFold acc xs) rest hts]
                  cases hr : parseAll ((rest.map proposalColumn).flatten) <;>
                    simp [Except.map, dedupFold_append]

theorem obs_ids_foldlM (table : List (String × List ArchiveRecord))
    (cat : List Target) :
    ∀ (acc : List String) (rowss : List (List ArchiveRecord)),
      cat.mapM (fun t => dictLookup? table t.number) = some rowss →
      (cat.foldlM (targetObsStep table) acc : Except MatcherError (List String))
        = .ok (dedupFold acc ((rowss.map obsidColumn).flatten)) := by
  induction cat with
  | nil =>
      intro acc rowss h
      simp only [List.mapM_nil, pure, Option.some.injEq] at h
      subst h
      rfl
  | cons t ts ih =>
      intro acc rowss h
      rw [List.mapM_cons] at h
      cases hl : dictLookup? table t.number with
      | none => rw [hl] at h; simp at h
      | some rows =>
          rw [hl] at h
          cases hts : ts.mapM (fun t => dictLookup? table t.number) with
          | none => rw [hts] at h; simp at h
          | some rest =>
              rw [hts] at h
              simp only [Option.bind_some, Option.bind_eq_bind, Option.some_bind,
                Option.some.injEq] at h
              have hrowss : rowss = rows :: rest := by
                cases h; rfl
              subst hrowss
              rw [List.foldlM_cons]
              have hstep : targetObsStep table acc t
                  = .ok (dedupFold acc (obsidColumn rows)) := by
                unfold targetObsStep
                rw [hl]
                rfl
              rw [hstep]
              show ts.foldlM (targetObsStep table) (dedupFold acc (obsidColumn rows)) = _
              rw [ih _ rest hts]
              simp [dedupFold_append]

/-! ### Lemmas: catalog construction and the full run -/

theorem except_bind_ok {ε α β : Type} (a : α) (f : α → Except ε β) :
    (Except.ok a : Except ε α) >>= f = f a := rfl

theorem except_bind_error {ε α β : Type} (e : ε) (f : α → Except ε β) :
    (Except.error e : Except ε α) >>= f = .error e := rfl

theorem mkTarget_ok_fields (r : RawTarget) (t : Target) (h : mkTarget r = .ok t) :
    search_area r.aperture = some t.search_area ∧
    instrument_name r.aperture = some t.instrument_name ∧
    t.number = r.number ∧ t.grating = r.grating ∧ t.filters = r.filters ∧
    t.RA = r.RA ∧ t.DEC = r.DEC ∧ t.exposure_time = r.exposure_time := by
  unfold mkTarget at h
  split at h
  · injection h with h
    subst h
    simp_all
  · cases h

theorem mkTarget_error_of_none (r : RawTarget) (h : search_area r.aperture = none) :
    mkTarget r = .error .configurationError := by
  unfold mkTarget
  split
  · simp_all
  · rfl

theorem mkTarget_ok_or_error (r : RawTarget) :
    (∃ t, mkTarget r = .ok t) ∨ mkTarget r = .error .configurationError := by
  unfold mkTarget
  split
  · exact Or.inl ⟨_, rfl⟩
  · exact Or.inr rfl

/-- The two aperture dicts resolve the same key iff the key is "MSA" for the
MOS instrument label. -/
theorem instrument_name_msa (k : String) (i : String)
    (h : instrument_name k = some i) : i = "NIRSPEC/MSA" ↔ k = "MSA" := by
  unfold instrument_name at h
  split at h <;> simp_all
  all_goals (subst h; decide)

theorem buildCatalog_error_of_mem (rs : List RawTarget) (r : RawTarget)
    (hm : r ∈ rs) (h : search_area r.aperture = none) :
    buildCatalog rs = .error .configurationError := by
  induction rs with
  | nil => cases hm
  | cons x xs ih =>
      show (x :: xs).mapM mkTarget = _
      rw [List.mapM_cons]
      rcases List.mem_cons.mp hm with he | he
      · subst he
        rw [mkTarget_error_of_none r h, except_bind_error]
      · have ihx : xs.mapM mkTarget = .error .configurationError := ih he
        cases hx : mkTarget x with
        | error e =>
            have he2 : e = MatcherError.configurationError := by
              rcases mkTarget_ok_or_error x with ⟨t, ht⟩ | ht
              · rw [ht] at hx; cases hx
              · rw [ht] at hx; injection hx with hx; exact hx.symm
            subst he2
            rw [except_bind_error]
        | ok t =>
            rw [except_bind_ok, ihx, except_bind_error]

theorem number_mem_buildTable_keys (svc : Service) (cat : List Target)
    (t : Target) (ht : t ∈ cat) :
    t.number ∈ (buildTable svc cat).map Prod.fst := by
  apply List.mem_map.mpr
  refine ⟨(t.number, svc (primaryQuery t)), ?_, rfl⟩
  apply List.mem_flatten.mpr
  refine ⟨targetWrites svc t, List.mem_map_of_mem _ ht, ?_⟩
  unfold targetWrites targetCalls
  rw [List.map_cons]
  exact List.mem_cons_self _ _

theorem mapM_lookup_some (table : List (String × List ArchiveRecord))
    (cat : List Target)
    (hall : ∀ t ∈ cat, t.number ∈ table.map Prod.fst) :
    ∃ rowss, cat.mapM (fun t => dictLookup? table t.number) = some rowss := by
  induction cat with
  | nil => exact ⟨[], rfl⟩
  | cons t ts ih =>
      have h1 := dictLookup?_isSome_of_mem table t.number
        (hall t (List.mem_cons_self _ _))
      obtain ⟨rows, hrows⟩ := Option.isSome_iff_exists.mp h1
      obtain ⟨rest, hrest⟩ := ih (fun u hu => hall u (List.mem_cons_of_mem _ hu))
      refine ⟨rows :: rest, ?_⟩
      rw [List.mapM_cons, hrows, hrest]
      rfl

/-- The full run, staged: when the catalog builds, every primary-table
lookup succeeds (it always does for the table the run itself built) and
every iterated `proposal_id` parses, the run returns the table plus the
first-occurrence deduplications of the parsed proposal ids and of the
iterated `obsid` strings. -/
theorem buildDuplicateReport_ok (svc : Service) (rs : List RawTarget)
    (cat : List Target) (rowss : List (List ArchiveRecord)) (ints : List Int)
    (hcat : buildCatalog rs = .ok cat)
    (hrows : cat.mapM (fun t => dictLookup? (buildTable svc cat) t.number)
      = some rowss)
    (hints : ((rowss.map proposalColumn).flatten).mapM pyInt = some ints) :
    buildDuplicateReport svc rs
      = .ok { table := buildTable svc cat,
              proposalIds := firstOccDedup ints,
              observationIds := firstOccDedup ((rowss.map obsidColumn).flatten) } := by
  have hp : proposal_ids (buildTable svc cat) cat = .ok (firstOccDedup ints) := by
    unfold proposal_ids
    rw [proposal_ids_foldlM _ _ [] rowss hrows]
    unfold parseAll
    rw [hints]
    show Except.ok (dedupFold [] ints) = _
    rw [dedupFold_nil_eq]
  have ho : obs_ids (buildTable svc cat) cat
      = .ok (firstOccDedup ((rowss.map obsidColumn).flatten)) := by
    unfold obs_ids
    rw [obs_ids_foldlM _ _ [] rowss hrows, dedupFold_nil_eq]
  show buildCatalog rs >>= _ = _
  rw [hcat, except_bind_ok]
  show proposal_ids (buildTable svc cat) cat >>= _ = _
  rw [hp, except_bind_ok]
  show obs_ids (buildTable svc cat) cat >>= _ = _
  rw [ho, except_bind_ok]
  rfl

/-! ### The claims -/

/-- Claim C5: for a catalog containing exactly one MSA candidate at ra 53.13,
dec −27.8, grating "G395H", filter "F290LP", exposure time 950 s, exactly one
query is issued, with search radius 180/360 = 0.5 degrees, bounding box ra in
[52.63, 53.63] and dec in [−28.3, −27.3], and exposure-time range
[237.5, 3800]. -/
theorem claim_C5 :
    mos_radius = 180 / 360 ∧ mos_radius = 0.5 ∧
    queriesIssuedRaw [target1raw]
      = [{ instrument_name := "NIRSPEC/MSA",
           s_ra_min := 52.63, s_ra_max := 53.63,
           s_dec_min := -28.3, s_dec_max := -27.3,
           grating := "G395H", filters := "F290LP",
           t_exptime_min := 237.5, t_exptime_max := 3800 }] := by
  refine ⟨rfl, by norm_num [mos_radius], ?_⟩
  have hcat : buildCatalog [target1raw] = .ok [target1built] := by
    unfold buildCatalog
    rw [List.mapM_cons]
    have h1 : mkTarget target1raw = .ok target1built := by
      show Except.ok _ = _
      norm_num [target1raw, target1built, mos_radius]
    rw [h1]
    rfl
  unfold queriesIssuedRaw
  rw [hcat]
  show [primaryQuery target1built] = _
  norm_num [primaryQuery, target1built]

/-- Claim C2: a candidate whose aperture mode is "MSA" triggers exactly one
query; any other (successfully built) candidate triggers exactly two, the
second using the same spatial bounding box, grating, filter and
exposure-time range as the first with the instrument-mode label forced to
the MSA entry. -/
theorem claim_C2 (r : RawTarget) (t : Target) (h : mkTarget r = .ok t) :
    (r.aperture = "MSA" → targetQueries t = [primaryQuery t]) ∧
    (r.aperture ≠ "MSA" →
      targetQueries t = [primaryQuery t, mosQuery t] ∧
      (mosQuery t).s_ra_min = (primaryQuery t).s_ra_min ∧
      (mosQuery t).s_ra_max = (primaryQuery t).s_ra_max ∧
      (mosQuery t).s_dec_min = (primaryQuery t).s_dec_min ∧
      (mosQuery t).s_dec_max = (primaryQuery t).s_dec_max ∧
      (mosQuery t).grating = (primaryQuery t).grating ∧
      (mosQuery t).filters = (primaryQuery t).filters ∧
      (mosQuery t).t_exptime_min = (primaryQuery t).t_exptime_min ∧
      (mosQuery t).t_exptime_max = (primaryQuery t).t_exptime_max ∧
      (mosQuery t).instrument_name = "NIRSPEC/MSA") := by
  obtain ⟨hsa, hin, hnum, hgr, hfl, hra, hdec, hexp⟩ := mkTarget_ok_fields r t h
  constructor
  · intro hmsa
    rw [hmsa] at hin
    have hlab : t.instrument_name = "NIRSPEC/MSA" := by
      have h2 : some "NIRSPEC/MSA" = some t.instrument_name := hin
      exact (Option.some.inj h2).symm
    unfold targetQueries targetCalls
    rw [if_neg (by simp [hlab])]
    rfl
  · intro hmsa
    have hne : t.instrument_name ≠ "NIRSPEC/MSA" := by
      intro heq
      exact hmsa ((instrument_name_msa r.aperture t.instrument_name hin).mp heq)
    refine ⟨?_, rfl, rfl, rfl, rfl, rfl, rfl, rfl, rfl, rfl⟩
    unfold targetQueries targetCalls
    rw [if_pos hne]
    rfl

/-- Witness for C2 at the notebook's IFU target 2. -/
theorem claim_C2_witness :
    mkTarget target2raw = .ok target2built ∧
    ((target2raw.aperture = "MSA" →
        targetQueries target2built = [primaryQuery target2built]) ∧
     (target2raw.aperture ≠ "MSA" →
        targetQueries target2built = [primaryQuery target2built, mosQuery target2built] ∧
        (mosQuery target2built).s_ra_min = (primaryQuery target2built).s_ra_min ∧
        (mosQuery target2built).s_ra_max = (primaryQuery target2built).s_ra_max ∧
        (mosQuery target2built).s_dec_min = (primaryQuery target2built).s_dec_min ∧
        (mosQuery target2built).s_dec_max = (primaryQuery target2built).s_dec_max ∧
        (mosQuery target2built).grating = (primaryQuery target2built).grating ∧
        (mosQuery target2built).filters = (primaryQuery target2built).filters ∧
        (mosQuery target2built).t_exptime_min = (primaryQuery target2built).t_exptime_min ∧
        (mosQuery target2built).t_exptime_max = (primaryQuery target2built).t_exptime_max ∧
        (mosQuery target2built).instrument_name = "NIRSPEC/MSA")) := by
  have h : mkTarget target2raw = .ok target2built := by
    show Except.ok _ = _
    norm_num [target2raw, target2built, ifu_radius]
  exact ⟨h, claim_C2 target2raw target2built h⟩

/-- Claim C4: a catalog containing a candidate whose aperture key resolves in
neither per-mode dict makes the whole run fail with the configuration error,
and no query at all is issued. -/
theorem claim_C4 (svc : Service) (rs : List RawTarget) (r : RawTarget)
    (hm : r ∈ rs) (h : search_area r.aperture = none) :
    buildDuplicateReport svc rs = .error .configurationError ∧
    queriesIssuedRaw rs = [] := by
  have hc := buildCatalog_error_of_mem rs r hm h
  constructor
  · show buildCatalog rs >>= _ = _
    rw [hc, except_bind_error]
  · unfold queriesIssuedRaw
    rw [hc]

/-- Witness for C4 at a one-entry catalog with an unknown aperture key. -/
theorem claim_C4_witness :
    rawBogus ∈ [rawBogus] ∧ search_area rawBogus.aperture = none ∧
    (buildDuplicateReport emptySvc [rawBogus] = .error .configurationError ∧
      queriesIssuedRaw [rawBogus] = []) :=
  ⟨by decide, by decide,
    claim_C4 emptySvc [rawBogus] rawBogus (by decide) (by decide)⟩

/-- The notebook's target 1 builds to `target1built`. -/
theorem buildCatalog_target1 : buildCatalog [target1raw] = .ok [target1built] := by
  unfold buildCatalog
  rw [List.mapM_cons]
  have h1 : mkTarget target1raw = .ok target1built := by
    show Except.ok _ = _
    norm_num [target1raw, target1built, mos_radius]
  rw [h1]
  rfl

/-- The run over target 1 alone issues exactly its primary (MSA) query. -/
theorem queriesIssuedRaw_target1 :
    queriesIssuedRaw [target1raw] = [primaryQuery target1built] := by
  unfold queriesIssuedRaw
  rw [buildCatalog_target1]
  rfl

theorem honestSvc_honors (pool : List ArchiveRecord) : Honors (honestSvc pool) := by
  intro q r hr
  have h := List.of_mem_filter hr
  exact of_decide_eq_true h

/-- Claim C6: assuming the archive service honors the criteria sent to it,
every record stored for a candidate — in its primary result sequence or its
MSA companion sequence — lies in the candidate's bounding box, has the
candidate's grating and filter, and has exposure time within a factor of 4
(inclusive) of the candidate's. -/
theorem claim_C6 (svc : Service) (t : Target) (k : String)
    (rows : List ArchiveRecord) (rec : ArchiveRecord)
    (hsvc : Honors svc) (hw : (k, rows) ∈ targetWrites svc t) (hr : rec ∈ rows) :
    t.RA - t.search_area ≤ rec.s_ra ∧ rec.s_ra ≤ t.RA + t.search_area ∧
    t.DEC - t.search_area ≤ rec.s_dec ∧ rec.s_dec ≤ t.DEC + t.search_area ∧
    rec.grating = t.grating ∧ rec.filters = t.filters ∧
    t.exposure_time / 4 ≤ rec.t_exptime ∧ rec.t_exptime ≤ t.exposure_time * 4 := by
  unfold targetWrites targetCalls at hw
  rw [List.map_cons] at hw
  rcases List.mem_cons.mp hw with he | he
  · have hrows : rows = svc (primaryQuery t) := congrArg Prod.snd he
    subst hrows
    have hm := hsvc _ _ hr
    unfold RecordMatches primaryQuery at hm
    exact hm
  · by_cases hc : t.instrument_name ≠ "NIRSPEC/MSA"
    · rw [if_pos hc, List.map_cons] at he
      rcases List.mem_cons.mp he with he2 | he2
      · have hrows : rows = svc (mosQuery t) := congrArg Prod.snd he2
        subst hrows
        have hm := hsvc _ _ hr
        unfold RecordMatches mosQuery at hm
        exact hm
      · simp at he2
    · rw [if_neg hc] at he
      simp at he

/-- Witness for C6: an honoring service returning one in-bounds record for
the notebook's target 1. -/
theorem claim_C6_witness :
    Honors (honestSvc [sampleRecord]) ∧
    ("1", [sampleRecord]) ∈ targetWrites (honestSvc [sampleRecord]) target1built ∧
    sampleRecord ∈ [sampleRecord] ∧
    (target1built.RA - target1built.search_area ≤ sampleRecord.s_ra ∧
     sampleRecord.s_ra ≤ target1built.RA + target1built.search_area ∧
     target1built.DEC - target1built.search_area ≤ sampleRecord.s_dec ∧
     sampleRecord.s_dec ≤ target1built.DEC + target1built.search_area ∧
     sampleRecord.grating = target1built.grating ∧
     sampleRecord.filters = target1built.filters ∧
     target1built.exposure_time / 4 ≤ sampleRecord.t_exptime ∧
     sampleRecord.t_exptime ≤ target1built.exposure_time * 4) := by
  have hsv := honestSvc_honors [sampleRecord]
  have hval : honestSvc [sampleRecord] (primaryQuery target1built) = [sampleRecord] := by
    unfold honestSvc
    have hd : decide (RecordMatches (primaryQuery target1built) sampleRecord) = true := by
      rw [decide_eq_true_eq]
      unfold RecordMatches primaryQuery target1built sampleRecord
      norm_num
    simp [List.filter_cons, hd]
  have htw : targetWrites (honestSvc [sampleRecord]) target1built
      = [("1", honestSvc [sampleRecord] (primaryQuery target1built))] := by
    unfold targetWrites targetCalls
    rw [if_neg (by simp [target1built])]
    rfl
  have hw : ("1", [sampleRecord])
      ∈ targetWrites (honestSvc [sampleRecord]) target1built := by
    rw [htw, hval]
    exact List.mem_cons_self _ _
  exact ⟨hsv, hw, List.mem_cons_self _ _,
    claim_C6 _ target1built "1" [sampleRecord] sampleRecord hsv hw
      (List.mem_cons_self _ _)⟩

/-- Claim C8: the run is deterministic in the external responses — two
services that agree on every query the run issues yield identical
duplicate reports. -/
theorem claim_C8 (svc₁ svc₂ : Service) (rs : List RawTarget)
    (hagree : ∀ q ∈ queriesIssuedRaw rs, svc₁ q = svc₂ q) :
    buildDuplicateReport svc₁ rs = buildDuplicateReport svc₂ rs := by
  cases hc : buildCatalog rs with
  | error e =>
      show buildCatalog rs >>= _ = buildCatalog rs >>= _
      rw [hc, except_bind_error, except_bind_error]
  | ok cat =>
      unfold queriesIssuedRaw at hagree
      rw [hc] at hagree
      have htab : buildTable svc₁ cat = buildTable svc₂ cat := by
        unfold buildTable
        apply congrArg List.flatten
        apply List.map_congr_left
        intro t ht
        unfold targetWrites
        apply List.map_congr_left
        intro p hp
        have hq : p.2 ∈ queriesIssued cat := by
          unfold queriesIssued
          apply List.mem_flatten.mpr
          exact ⟨targetQueries t, List.mem_map_of_mem _ ht,
            List.mem_map_of_mem _ hp⟩
        rw [hagree p.2 hq]
      show buildCatalog rs >>= _ = buildCatalog rs >>= _
      rw [hc, except_bind_ok, except_bind_ok]
      show (do
        let pids ← proposal_ids (buildTable svc₁ cat) cat
        let oids ← obs_ids (buildTable svc₁ cat) cat
        pure { table := buildTable svc₁ cat, proposalIds := pids,
               observationIds := oids } : Except MatcherError DuplicateReport) = _
      rw [htab]

/-- Witness for C8: two services differing away from the issued queries give
the same report over the notebook's target 1. -/
theorem claim_C8_witness :
    buildDuplicateReport emptySvc [target1raw]
      = buildDuplicateReport mosOnlySvc [target1raw] :=
  claim_C8 emptySvc mosOnlySvc [target1raw] (by
    intro q hq
    rw [queriesIssuedRaw_target1] at hq
    simp only [List.mem_cons, List.not_mem_nil, or_false] at hq
    subst hq
    rfl)

/-- If the per-target lookups all succeed and `t`'s lookup gives `rows`,
then `rows` is among the collected row lists. -/
theorem mapM_lookup_mem (table : List (String × List ArchiveRecord))
    (cat : List Target) (rowss : List (List ArchiveRecord))
    (h : cat.mapM (fun t => dictLookup? table t.number) = some rowss)
    (t : Target) (ht : t ∈ cat) (rows : List ArchiveRecord)
    (hrow : dictLookup? table t.number = some rows) : rows ∈ rowss := by
  induction cat generalizing rowss with
  | nil => cases ht
  | cons x xs ih =>
      rw [List.mapM_cons] at h
      cases hx : dictLookup? table x.number with
      | none => rw [hx] at h; simp at h
      | some rx =>
          rw [hx] at h
          cases hxs : xs.mapM (fun t => dictLookup? table t.number) with
          | none => rw [hxs] at h; simp at h
          | some rest =>
              rw [hxs] at h
              simp only [Option.bind_some, Option.bind_eq_bind, Option.some_bind,
                Option.some.injEq] at h
              have hr : rowss = rx :: rest := by cases h; rfl
              subst hr
              rcases List.mem_cons.mp ht with he | he
              · subst he
                rw [hx] at hrow
                injection hrow with hrow
                exact hrow ▸ List.mem_cons_self _ _
              · exact List.mem_cons_of_mem _ (ih rest hxs he)

/-- A single unparseable string makes the whole conversion pass fail. -/
theorem mapM_pyInt_none (l : List String) (s : String) (hs : s ∈ l)
    (h : pyInt s = none) : l.mapM pyInt = none := by
  induction l with
  | nil => cases hs
  | cons x xs ih =>
      rw [List.mapM_cons]
      rcases List.mem_cons.mp hs with he | he
      · subst he
        rw [h]
        rfl
      · cases hx : pyInt x with
        | none => rfl
        | some n =>
            rw [ih he]
            rfl

/-- Claim C3: when the derivations succeed, `proposal_ids` is exactly the
first-occurrence deduplication of the integer conversions of the iterated
`proposal_id` strings (hence duplicate-free, in first-occurrence order), and
`obs_ids` likewise over the `obsid` strings kept unconverted. -/
theorem claim_C3 (table : List (String × List ArchiveRecord))
    (cat : List Target) (rowss : List (List ArchiveRecord)) (ints : List Int)
    (hrows : cat.mapM (fun t => dictLookup? table t.number) = some rowss)
    (hints : ((rowss.map proposalColumn).flatten).mapM pyInt = some ints) :
    proposal_ids table cat = .ok (firstOccDedup ints) ∧
    (firstOccDedup ints).Nodup ∧
    obs_ids table cat = .ok (firstOccDedup ((rowss.map obsidColumn).flatten)) ∧
    (firstOccDedup ((rowss.map obsidColumn).flatten)).Nodup := by
  refine ⟨?_, firstOccDedup_nodup _, ?_, firstOccDedup_nodup _⟩
  · unfold proposal_ids
    rw [proposal_ids_foldlM _ _ [] rowss hrows]
    unfold parseAll
    rw [hints]
    show Except.ok (dedupFold [] ints) = _
    rw [dedupFold_nil_eq]
  · unfold obs_ids
    rw [obs_ids_foldlM _ _ [] rowss hrows, dedupFold_nil_eq]

/-- Witness for C3: a table with a repeated proposal id and two obsids. -/
theorem claim_C3_witness :
    ([target1built].mapM (fun t => dictLookup? tblW t.number)
      = some [[sampleRecord, sampleRecord2]]) ∧
    ((([[sampleRecord, sampleRecord2]].map proposalColumn).flatten).mapM pyInt
      = some [1180, 1180]) ∧
    (proposal_ids tblW [target1built] = .ok (firstOccDedup [(1180 : Int), 1180]) ∧
     (firstOccDedup [(1180 : Int), 1180]).Nodup ∧
     obs_ids tblW [target1built]
       = .ok (firstOccDedup (([[sampleRecord, sampleRecord2]].map obsidColumn).flatten)) ∧
     (firstOccDedup (([[sampleRecord, sampleRecord2]].map obsidColumn).flatten)).Nodup) :=
  ⟨rfl, rfl,
    claim_C3 tblW [target1built] [[sampleRecord, sampleRecord2]] [1180, 1180] rfl rfl⟩

/-- Counterexample to C1 as stated: for the notebook's IFU target 2 and a
service that returns a row with proposal id 8 only on the companion MSA
query, the companion row is stored under "2MOS" and parses, yet 8 never
reaches `proposalIds` (nor its obsid `observationIds`): the derivations
aggregate the primary sequences only. -/
theorem claim_C1_counterexample :
    buildDuplicateReport splitSvc [target2raw]
      = .ok { table := [("2", [recPrimary]), ("2MOS", [recMos])],
              proposalIds := [7], observationIds := ["100"] } ∧
    dictLookup? [("2", [recPrimary]), ("2MOS", [recMos])] "2MOS" = some [recMos] ∧
    pyInt recMos.proposal_id = some 8 ∧
    (8 : Int) ∉ [(7 : Int)] ∧ recMos.obsid ∉ ["100"] := by
  refine ⟨rfl, rfl, rfl, by decide, by decide⟩

/-- Claim C1 (amended): the derived sequences aggregate, in catalog order and
service-return order, exactly the records of the result sequence stored
under each candidate's own id — the companion sequences under id + "MOS" are
not aggregated. -/
theorem claim_C1 (svc : Service) (rs : List RawTarget) (cat : List Target)
    (rowss : List (List ArchiveRecord)) (ints : List Int)
    (hcat : buildCatalog rs = .ok cat)
    (hrows : cat.mapM (fun t => dictLookup? (buildTable svc cat) t.number)
      = some rowss)
    (hints : ((rowss.map proposalColumn).flatten).mapM pyInt = some ints) :
    buildDuplicateReport svc rs
      = .ok { table := buildTable svc cat,
              proposalIds := firstOccDedup ints,
              observationIds := firstOccDedup ((rowss.map obsidColumn).flatten) } :=
  buildDuplicateReport_ok svc rs cat rowss ints hcat hrows hints

/-- Witness for C1 at the IFU target 2 under the two-sided service. -/
theorem claim_C1_witness :
    buildCatalog [target2raw] = .ok [target2built] ∧
    ([target2built].mapM
        (fun t => dictLookup? (buildTable splitSvc [target2built]) t.number)
      = some [[recPrimary]]) ∧
    buildDuplicateReport splitSvc [target2raw]
      = .ok { table := buildTable splitSvc [target2built],
              proposalIds := firstOccDedup [(7 : Int)],
              observationIds := firstOccDedup (([[recPrimary]].map obsidColumn).flatten) } :=
  ⟨rfl, rfl,
    claim_C1 splitSvc [target2raw] [target2built] [[recPrimary]] [7] rfl rfl rfl⟩

/-- Counterexample to C7 as stated: two MSA candidates both numbered "1"
(distinguished by grating) build successfully, the service answers the first
one's query with a row, yet after the run the table entry under "1" is the
second candidate's (empty) result — the first candidate's rows are no longer
addressable under its id. -/
theorem claim_C7_counterexample :
    buildCatalog [rawA, rawB] = .ok [tA, tB] ∧
    tA ∈ [tA, tB] ∧
    svcByGrating (primaryQuery tA) = [recPrimary] ∧
    dictLookup? (buildTable svcByGrating [tA, tB]) tA.number = some [] ∧
    some ([] : List ArchiveRecord) ≠ some [recPrimary] := by
  refine ⟨rfl, List.mem_cons_self _ _, rfl, rfl, by simp⟩

/-- Claim C7 (amended): provided the storage keys of the run are pairwise
distinct, each candidate's service rows are stored unmodified (same rows,
same order, primary and companion never merged) and remain addressable under
its id and its id + "MOS". -/
theorem claim_C7 (svc : Service) (cat : List Target) (t : Target)
    (ht : t ∈ cat) (hnd : ((buildTable svc cat).map Prod.fst).Nodup) :
    dictLookup? (buildTable svc cat) t.number = some (svc (primaryQuery t)) ∧
    (t.instrument_name ≠ "NIRSPEC/MSA" →
      dictLookup? (buildTable svc cat) (t.number ++ "MOS")
        = some (svc (mosQuery t))) := by
  constructor
  · have hmem1 : (t.number, svc (primaryQuery t)) ∈ buildTable svc cat := by
      unfold buildTable
      apply List.mem_flatten.mpr
      refine ⟨targetWrites svc t, List.mem_map_of_mem _ ht, ?_⟩
      unfold targetWrites targetCalls
      rw [List.map_cons]
      exact List.mem_cons_self _ _
    exact dictLookup?_of_nodup _ hnd (t.number, svc (primaryQuery t)) hmem1
  · intro hc
    have hmem2 : (t.number ++ "MOS", svc (mosQuery t)) ∈ buildTable svc cat := by
      unfold buildTable
      apply List.mem_flatten.mpr
      refine ⟨targetWrites svc t, List.mem_map_of_mem _ ht, ?_⟩
      unfold targetWrites targetCalls
      rw [if_pos hc, List.map_cons, List.map_cons]
      exact List.mem_cons_of_mem _ (List.mem_cons_self _ _)
    exact dictLookup?_of_nodup _ hnd (t.number ++ "MOS", svc (mosQuery t)) hmem2

/-- Witness for C7 on the two-target catalog, whose keys "1", "2", "2MOS"
are pairwise distinct. -/
theorem claim_C7_witness :
    target2built ∈ [target1built, target2built] ∧
    ((buildTable emptySvc [target1built, target2built]).map Prod.fst).Nodup ∧
    (dictLookup? (buildTable emptySvc [target1built, target2built])
        target2built.number = some (emptySvc (primaryQuery target2built)) ∧
     (target2built.instrument_name ≠ "NIRSPEC/MSA" →
        dictLookup? (buildTable emptySvc [target1built, target2built])
            (target2built.number ++ "MOS")
          = some (emptySvc (mosQuery target2built)))) := by
  have ht : target2built ∈ [target1built, target2built] :=
    List.mem_cons_of_mem _ (List.mem_cons_self _ _)
  have hnd : ((buildTable emptySvc [target1built, target2built]).map
      Prod.fst).Nodup := by
    have hk : (buildTable emptySvc [target1built, target2built]).map Prod.fst
        = ["1", "2", "2MOS"] := rfl
    rw [hk]
    decide
  exact ⟨ht, hnd, claim_C7 emptySvc [target1built, target2built] target2built ht hnd⟩

/-- Counterexample to C9 as stated: the unparseable proposal id sits in a
record surfaced only in the companion "2MOS" sequence; the derivation never
iterates it, so the run still produces a report. -/
theorem claim_C9_counterexample :
    pyInt recBad.proposal_id = none ∧
    dictLookup? (buildTable badMosSvc [target2built]) ("2" ++ "MOS")
      = some [recBad] ∧
    buildDuplicateReport badMosSvc [target2raw]
      = .ok { table := buildTable badMosSvc [target2built],
              proposalIds := [7], observationIds := ["100"] } :=
  ⟨rfl, rfl, rfl⟩

/-- Claim C9 (amended): if a record in the result sequence stored under some
candidate's own id — the sequences the derivation iterates — has a
proposal id that does not parse as a decimal integer, the run raises the
conversion error and produces no report. -/
theorem claim_C9 (svc : Service) (rs : List RawTarget) (cat : List Target)
    (t : Target) (rows : List ArchiveRecord) (rec : ArchiveRecord)
    (hcat : buildCatalog rs = .ok cat) (ht : t ∈ cat)
    (hrow : dictLookup? (buildTable svc cat) t.number = some rows)
    (hrec : rec ∈ rows) (hbad : pyInt rec.proposal_id = none) :
    buildDuplicateReport svc rs = .error .conversionError := by
  obtain ⟨rowss, hrowss⟩ := mapM_lookup_some (buildTable svc cat) cat
    (fun u hu => number_mem_buildTable_keys svc cat u hu)
  have hrowsmem : rows ∈ rowss :=
    mapM_lookup_mem (buildTable svc cat) cat rowss hrowss t ht rows hrow
  have hmem : rec.proposal_id ∈ (rowss.map proposalColumn).flatten := by
    apply List.mem_flatten.mpr
    refine ⟨proposalColumn rows, List.mem_map_of_mem _ hrowsmem, ?_⟩
    exact List.mem_map_of_mem _ hrec
  have hperr : proposal_ids (buildTable svc cat) cat
      = .error .conversionError := by
    unfold proposal_ids
    rw [proposal_ids_foldlM _ _ [] rowss hrowss]
    unfold parseAll
    rw [mapM_pyInt_none _ rec.proposal_id hmem hbad]
    rfl
  show buildCatalog rs >>= _ = _
  rw [hcat, except_bind_ok]
  show proposal_ids (buildTable svc cat) cat >>= _ = _
  rw [hperr, except_bind_error]

/-- Witness for C9: the unparseable record in the primary sequence aborts
the run. -/
theorem claim_C9_witness :
    buildCatalog [target2raw] = .ok [target2built] ∧
    target2built ∈ [target2built] ∧
    dictLookup? (buildTable badPrimarySvc [target2built]) target2built.number
      = some [recBad] ∧
    recBad ∈ [recBad] ∧
    pyInt recBad.proposal_id = none ∧
    buildDuplicateReport badPrimarySvc [target2raw] = .error .conversionError :=
  ⟨rfl, List.mem_cons_self _ _, rfl, List.mem_cons_self _ _, rfl,
    claim_C9 badPrimarySvc [target2raw] [target2built] target2built [recBad]
      recBad rfl (List.mem_cons_self _ _) rfl (List.mem_cons_self _ _) rfl⟩

/-- Claim C10: the table's keys need not be distinct.  Scenario A: two MSA
candidates both numbered "1" — the second query's (empty) result overwrites
the first's row under "1".  Scenario B: a non-MSA candidate "1" followed by
an MSA candidate "1MOS" — the latter's (empty) result overwrites the
former's companion rows under "1MOS".  In both, the overwritten write event
is in the table but no longer returned by lookup. -/
theorem claim_C10 :
    (buildCatalog [rawA, rawB] = .ok [tA, tB] ∧
     (tA.number, [recPrimary]) ∈ buildTable svcByGrating [tA, tB] ∧
     dictLookup? (buildTable svcByGrating [tA, tB]) tA.number = some [] ∧
     some ([] : List ArchiveRecord) ≠ some [recPrimary]) ∧
    (buildCatalog [rawC, rawD] = .ok [tC, tD] ∧
     (tC.number ++ "MOS", [recPrimary]) ∈ buildTable svcByGrating [tC, tD] ∧
     dictLookup? (buildTable svcByGrating [tC, tD]) (tC.number ++ "MOS")
       = some [] ∧
     some ([] : List ArchiveRecord) ≠ some [recPrimary]) := by
  constructor
  · refine ⟨rfl, ?_, rfl, by simp⟩
    have htab : buildTable svcByGrating [tA, tB]
        = [("1", [recPrimary]), ("1", [])] := rfl
    rw [htab]
    exact List.mem_cons_self _ _
  · refine ⟨rfl, ?_, rfl, by simp⟩
    have htab : buildTable svcByGrating [tC, tD]
        = [("1", [recPrimary]), ("1MOS", [recPrimary]), ("1MOS", [])] := rfl
    rw [htab]
    exact List.mem_cons_of_mem _ (List.mem_cons_self _ _)

end MastQuery
